import Mathlib

/-!
Shallow embedding of the serial-port backend in `src/src-tauri/src/lib.rs`.

The Rust code keeps two process-wide registries: `SERIAL_PORTS`, a
`HashMap<String, Box<dyn SerialPort>>` of open real-port handles, and
`VIRTUAL_BUFFERS`, a `HashMap<String, Vec<u8>>` of pending-output byte
buffers for virtual ports.  We model each registry as an association list
with HashMap semantics (insert replaces, lookup finds the unique entry).
OS interactions (port enumeration, open, write, read) are parameters of the
embedded operations: an oracle value describes what the OS would do, and
the embedding reproduces exactly how the Rust code reacts to it.
Bytes are modelled as `Nat` (values below 256 in reality), timestamps as a
`Nat` millisecond parameter, and the compile-time `cfg!(target_os =
"windows")` test as a `Bool` parameter.
-/

namespace SerialTool

/-- Association-list map with `HashMap` semantics: at most one entry per key. -/
def mapFind (k : String) : List (String × α) → Option α
  | [] => none
  | (k2, v) :: rest => if k2 = k then some v else mapFind k rest

/-- `HashMap::remove`: drop the entry for `k`, if any. -/
def mapErase (k : String) (m : List (String × α)) : List (String × α) :=
  m.filter (fun p => p.1 ≠ k)

/-- `HashMap::insert`: set the value at `k`, replacing any prior entry. -/
def mapInsert (k : String) (v : α) (m : List (String × α)) : List (String × α) :=
  (k, v) :: mapErase k m

/-- The virtual-port registry `VIRTUAL_BUFFERS`: identifier to pending bytes. -/
def Buffers := List (String × List Nat)

/-- The real-port registry `SERIAL_PORTS`; `H` is the opaque handle type. -/
def SerialPorts (H : Type) := List (String × H)

/-- UTF-8 encoding of one character (byte values as `Nat`). -/
def utf8EncodeCharNat (c : Char) : List Nat :=
  let n := c.toNat
  if n < 0x80 then [n]
  else if n < 0x800 then [0xC0 + n / 64, 0x80 + n % 64]
  else if n < 0x10000 then
    [0xE0 + n / 4096, 0x80 + (n / 64) % 64, 0x80 + n % 64]
  else
    [0xF0 + n / 262144, 0x80 + (n / 4096) % 64, 0x80 + (n / 64) % 64,
     0x80 + n % 64]

/-- UTF-8 bytes of a string, as `str::as_bytes` yields them. -/
def strBytes (s : String) : List Nat :=
  (s.toList.map utf8EncodeCharNat).flatten

/-- Rust `str::starts_with` on string literals (char-list prefix test; the
prefixes used in the code are ASCII, where characters and bytes agree). -/
def strStartsWith (s p : String) : Bool :=
  p.toList.isPrefixOf s.toList

/-- Rust `char::is_whitespace`: the Unicode White_Space code points. -/
def rustIsWhitespace (c : Char) : Bool :=
  let n := c.toNat
  (0x09 ≤ n && n ≤ 0x0D) || n = 0x20 || n = 0x85 || n = 0xA0 || n = 0x1680 ||
    (0x2000 ≤ n && n ≤ 0x200A) || n = 0x2028 || n = 0x2029 || n = 0x202F ||
    n = 0x205F || n = 0x3000

/-- Rust `char::to_digit(16)`: the value of one base-16 digit. -/
def hexDigitVal (c : Char) : Option Nat :=
  if '0' ≤ c ∧ c ≤ '9' then some (c.toNat - 48)
  else if 'a' ≤ c ∧ c ≤ 'f' then some (c.toNat - 87)
  else if 'A' ≤ c ∧ c ≤ 'F' then some (c.toNat - 55)
  else none

/-- Rust `u8::from_str_radix(pair, 16)` on a two-character slice: an optional
leading plus sign followed by base-16 digits (the two-digit maximum 0xFF
always fits in `u8`). -/
def fromStrRadix16 (c1 c2 : Char) : Except String Nat :=
  if c1 = '+' then
    match hexDigitVal c2 with
    | some v => Except.ok v
    | none => Except.error "invalid digit found in string"
  else
    match hexDigitVal c1, hexDigitVal c2 with
    | some v1, some v2 => Except.ok (v1 * 16 + v2)
    | _, _ => Except.error "invalid digit found in string"

/-- The collect loop of `hex_string_to_bytes`, character-level view: decode
consecutive two-character groups, stopping at the first error.  The Rust loop
steps over byte indices and slices two bytes at a time; on inputs whose
cleaned form is pure ASCII the two views coincide
(`decodeHexPairsBytes_ascii`).  The byte-faithful model, including the
slicing panic on non-ASCII input, is `decodeHexPairsBytes`. -/
def decodeHexPairs : List Char → Except String (List Nat)
  | [] => Except.ok []
  | [_] => Except.error "Hex string length must be even"
  | c1 :: c2 :: rest =>
    match fromStrRadix16 c1 c2 with
    | Except.error e => Except.error ("Invalid hex: " ++ e)
    | Except.ok b =>
      match decodeHexPairs rest with
      | Except.error e => Except.error e
      | Except.ok bs => Except.ok (b :: bs)

/-- The whitespace-stripping pass of `hex_string_to_bytes`. -/
def cleanHex (hex : String) : List Char :=
  hex.toList.filter (fun c => !rustIsWhitespace c)

/-- `hex_string_to_bytes` (lib.rs lines 271-287), character-level view: strip
whitespace, require even length, decode two-character groups base-16.  The
Rust measures `hex_clean.len()` in bytes and slices `&hex_clean[i..i + 2]` by
byte index; this view counts and pairs characters, so it agrees with the Rust
exactly on ASCII inputs (`hexStringToBytesRust_ascii`) and on every
successful decode (`hexStringToBytesRust_ok_iff`), while the byte-faithful
`hexStringToBytesRust` additionally models the panic the Rust hits when a
two-byte slice boundary splits a multi-byte character. -/
def hex_string_to_bytes (hex : String) : Except String (List Nat) :=
  let hex_clean := cleanHex hex
  if hex_clean.length % 2 ≠ 0 then
    Except.error "Hex string length must be even"
  else
    decodeHexPairs hex_clean

/-- Rust `str::parse::<u32>`: an optional leading plus sign, then one or more
ASCII decimal digits, with the value required to fit in 32 bits. -/
def parseU32 (s : String) : Option Nat :=
  let cs := s.toList
  let digits := if cs.head? = some '+' then cs.tail else cs
  if digits.isEmpty then none
  else if digits.all (fun c => c.isDigit) then
    let v := digits.foldl (fun a c => a * 10 + (c.toNat - 48)) 0
    if v < 4294967296 then some v else none
  else none

/-- `normalize_port_path` (lib.rs lines 291-304); `isWindows` stands for the
compile-time `cfg!(target_os = "windows")` test. -/
def normalize_port_path (isWindows : Bool) (port_name : String) : String :=
  if isWindows then
    if strStartsWith port_name "COM" then
      match parseU32 (port_name.drop 3) with
      | some num => if 10 ≤ num then "\\\\.\\" ++ port_name else port_name
      | none => port_name
    else port_name
  else port_name

/-- `SerialPortInfo` (lib.rs lines 17-21). -/
structure SerialPortInfo where
  port_name : String
  port_type : String
deriving DecidableEq, Repr

/-- `SerialConfig` (lib.rs lines 24-31). -/
structure SerialConfig where
  port_name : String
  baud_rate : Nat
  data_bits : Nat
  stop_bits : Nat
  parity : String
deriving DecidableEq, Repr

/-- `serialport::SerialPortType` as reported by `available_ports`. -/
inductive OSPortType where
  | usbPort (product : Option String) (manufacturer : Option String)
  | pciPort
  | bluetoothPort
  | unknown
deriving DecidableEq, Repr

/-- One entry of the OS enumeration result. -/
structure OSPortInfo where
  port_name : String
  port_type : OSPortType
deriving DecidableEq, Repr

/-- The `port_type` classification in `list_serial_ports` (lib.rs lines 42-56). -/
def classifyPortType : OSPortType → String
  | OSPortType.usbPort (some product) _ => "USB: " ++ product
  | OSPortType.usbPort none (some manufacturer) => "USB: " ++ manufacturer
  | OSPortType.usbPort none none => "USB Device"
  | OSPortType.pciPort => "PCI Port"
  | OSPortType.bluetoothPort => "Bluetooth"
  | OSPortType.unknown => "Unknown"

/-- The real-port entries of the list (lib.rs lines 39-63): on enumeration
error (`osPorts = none`) no real port is listed. -/
def realPortEntries (osPorts : Option (List OSPortInfo)) : List SerialPortInfo :=
  match osPorts with
  | some ports => ports.map (fun p => SerialPortInfo.mk p.port_name (classifyPortType p.port_type))
  | none => []

/-- The three virtual entries appended at lib.rs lines 66-77. -/
def virtualPortEntries : List SerialPortInfo :=
  [ SerialPortInfo.mk "VIRTUAL-COM1" "Virtual Port (Echo)",
    SerialPortInfo.mk "VIRTUAL-COM2" "Virtual Port (Reply)",
    SerialPortInfo.mk "VIRTUAL-COM3" "Virtual Port (Random)" ]

/-- `list_serial_ports` (lib.rs lines 35-80); `osPorts` is the outcome of
`serialport::available_ports()`, `none` when it returns an error. -/
def list_serial_ports (osPorts : Option (List OSPortInfo)) :
    Except String (List SerialPortInfo) :=
  Except.ok (realPortEntries osPorts ++ virtualPortEntries)

/-- `serialport::Parity`. -/
inductive Parity where
  | none | odd | even
deriving DecidableEq, Repr

/-- `serialport::StopBits`. -/
inductive StopBits where
  | one | two
deriving DecidableEq, Repr

/-- `serialport::DataBits`. -/
inductive DataBits where
  | five | six | seven | eight
deriving DecidableEq, Repr

/-- The parity match of `open_serial_port` (lib.rs lines 97-102). -/
def parseParity (s : String) : Parity :=
  match s with
  | "None" => Parity.none
  | "Odd" => Parity.odd
  | "Even" => Parity.even
  | _ => Parity.none

/-- The stop-bits match of `open_serial_port` (lib.rs lines 105-109). -/
def parseStopBits (n : Nat) : StopBits :=
  match n with
  | 1 => StopBits.one
  | 2 => StopBits.two
  | _ => StopBits.one

/-- The data-bits match of `open_serial_port` (lib.rs lines 112-118). -/
def parseDataBits (n : Nat) : DataBits :=
  match n with
  | 5 => DataBits.five
  | 6 => DataBits.six
  | 7 => DataBits.seven
  | 8 => DataBits.eight
  | _ => DataBits.eight

/-- What `open_serial_port` hands to `serialport::new(...).open()`
(lib.rs lines 124-129): path, baud rate, parsed settings, 100 ms timeout. -/
structure OpenSettings where
  path : String
  baud_rate : Nat
  data_bits : DataBits
  stop_bits : StopBits
  parity : Parity
  timeout_ms : Nat
deriving DecidableEq, Repr

/-- The settings built for the OS open call from a configuration. -/
def mkOpenSettings (isWindows : Bool) (config : SerialConfig) : OpenSettings :=
  { path := normalize_port_path isWindows config.port_name,
    baud_rate := config.baud_rate,
    data_bits := parseDataBits config.data_bits,
    stop_bits := parseStopBits config.stop_bits,
    parity := parseParity config.parity,
    timeout_ms := 100 }

/-- `open_serial_port` (lib.rs lines 84-138).  `osOpen` is the OS oracle for
`serialport::new(...).open()`; `H` is the handle type.  Returns the command
result together with the updated registries. -/
def open_serial_port {H : Type} (isWindows : Bool) (config : SerialConfig)
    (osOpen : OpenSettings → Except String H)
    (virt : Buffers) (real : SerialPorts H) :
    Except String String × Buffers × SerialPorts H :=
  if strStartsWith config.port_name "VIRTUAL-" then
    (Except.ok ("Virtual port " ++ config.port_name ++ " opened successfully"),
     mapInsert config.port_name [] virt, real)
  else
    match osOpen (mkOpenSettings isWindows config) with
    | Except.error e => (Except.error ("Failed to open port: " ++ e), virt, real)
    | Except.ok port =>
      (Except.ok ("Port " ++ config.port_name ++ " opened successfully"),
       virt, mapInsert config.port_name port real)

/-- `close_serial_port` (lib.rs lines 142-161). -/
def close_serial_port {H : Type} (port_name : String)
    (virt : Buffers) (real : SerialPorts H) :
    Except String String × Buffers × SerialPorts H :=
  if strStartsWith port_name "VIRTUAL-" then
    (Except.ok ("Virtual port " ++ port_name ++ " closed successfully"),
     mapErase port_name virt, real)
  else
    match mapFind port_name real with
    | some _ =>
      (Except.ok ("Port " ++ port_name ++ " closed successfully"),
       virt, mapErase port_name real)
    | none => (Except.error ("Port " ++ port_name ++ " not found"), virt, real)

/-- The virtual branch of `write_serial_data` (lib.rs lines 174-207):
`bytes_to_send` are the decoded payload bytes, `data` the original text form,
`now` the wall-clock milliseconds used by the random variant. -/
def virtualWriteBytes (port_name : String) (bytes_to_send : List Nat)
    (data : String) (now : Nat) (virt : Buffers) :
    Except String String × Buffers :=
  match mapFind port_name virt with
  | some buffer =>
    let newBuffer :=
      if port_name = "VIRTUAL-COM1" then buffer ++ bytes_to_send
      else if port_name = "VIRTUAL-COM2" then
        buffer ++ strBytes ("Received: " ++ data)
      else if port_name = "VIRTUAL-COM3" then
        buffer ++ strBytes ("Random-" ++ toString (now % 10000))
      else buffer
    (Except.ok ("Sent " ++ toString bytes_to_send.length ++ " bytes"),
     mapInsert port_name newBuffer virt)
  | none => (Except.error ("Virtual port " ++ port_name ++ " not found"), virt)

/-- `write_serial_data` (lib.rs lines 165-221).  `osWrite` is the OS oracle
for `port.write_all` on a real handle. -/
def write_serial_data {H : Type} (port_name : String) (data : String)
    (is_hex : Bool) (now : Nat) (osWrite : H → List Nat → Except String Unit)
    (virt : Buffers) (real : SerialPorts H) :
    Except String String × Buffers × SerialPorts H :=
  let decoded : Except String (List Nat) :=
    if is_hex then
      match hex_string_to_bytes data with
      | Except.error e => Except.error ("Invalid hex string: " ++ e)
      | Except.ok bs => Except.ok bs
    else Except.ok (strBytes data)
  match decoded with
  | Except.error e => (Except.error e, virt, real)
  | Except.ok bytes_to_send =>
    if strStartsWith port_name "VIRTUAL-" then
      let r := virtualWriteBytes port_name bytes_to_send data now virt
      (r.1, r.2, real)
    else
      match mapFind port_name real with
      | none => (Except.error ("Port " ++ port_name ++ " not found"), virt, real)
      | some port =>
        match osWrite port bytes_to_send with
        | Except.error e =>
          (Except.error ("Failed to write data: " ++ e), virt, real)
        | Except.ok _ =>
          (Except.ok ("Sent " ++ toString bytes_to_send.length ++ " bytes"),
           virt, real)

/-- The virtual branch of `read_serial_data` (lib.rs lines 227-243): drain
the whole buffer, empty yields an empty read. -/
def virtualRead (port_name : String) (virt : Buffers) :
    Except String (List Nat) × Buffers :=
  match mapFind port_name virt with
  | some buffer =>
    if buffer.isEmpty then (Except.ok [], virt)
    else (Except.ok buffer, mapInsert port_name [] virt)
  | none => (Except.error ("Virtual port " ++ port_name ++ " not found"), virt)

/-- The outcome of `port.read(&mut buffer)` on a real handle: `ok data` means
the OS placed `data` at the start of the scratch buffer and returned its
length; `timedOut` is an error of kind `TimedOut`; `err` any other error. -/
inductive ReadOutcome where
  | ok (data : List Nat)
  | timedOut (msg : String)
  | err (msg : String)

/-- The 1024-byte scratch buffer after a successful OS read of `data`. -/
def filledReadBuffer (data : List Nat) : List Nat :=
  data ++ (List.replicate 1024 0).drop data.length

/-- `read_serial_data` (lib.rs lines 225-268).  `setTimeout` is the OS
oracle for `port.set_timeout` (given the duration in ms), `readRes` for
`port.read`. -/
def read_serial_data {H : Type} (port_name : String) (timeout_ms : Nat)
    (setTimeout : Nat → Except String Unit) (readRes : ReadOutcome)
    (virt : Buffers) (real : SerialPorts H) :
    Except String (List Nat) × Buffers :=
  if strStartsWith port_name "VIRTUAL-" then
    virtualRead port_name virt
  else
    match mapFind port_name real with
    | none => (Except.error ("Port " ++ port_name ++ " not found"), virt)
    | some _ =>
      match setTimeout timeout_ms with
      | Except.error e => (Except.error ("Failed to set timeout: " ++ e), virt)
      | Except.ok _ =>
        match readRes with
        | ReadOutcome.ok data =>
          (Except.ok ((filledReadBuffer data).take data.length), virt)
        | ReadOutcome.timedOut _ => (Except.ok [], virt)
        | ReadOutcome.err e =>
          (Except.error ("Failed to read data: " ++ e), virt)

/-- The consecutive two-character groups of a character list, in order (the
groups visited by the `step_by(2)` loop of `hex_string_to_bytes`). -/
def hexPairs : List Char → List (Char × Char)
  | c1 :: c2 :: rest => (c1, c2) :: hexPairs rest
  | _ => []

/-- The fate of a Rust computation that may panic: `ret` a value, or a
panic (an unwinding abort, not a returned error). -/
inductive RustRun (α : Type) where
  | ret (a : α)
  | panicked

/-- The fate of the byte-faithful hex decode: a byte list, a returned
decoding error, or a panic from slicing across a character boundary. -/
inductive RustHexOutcome where
  | ok (bytes : List Nat)
  | err (msg : String)
  | panicked
deriving DecidableEq, Repr

/-- Whether a decode outcome is the panic. -/
def RustHexOutcome.isPanicked : RustHexOutcome → Bool
  | RustHexOutcome.panicked => true
  | _ => false

/-- The UTF-8 byte width of a character. -/
def charByteLen (c : Char) : Nat := (utf8EncodeCharNat c).length

/-- Byte-faithful collect loop of `hex_string_to_bytes` (lib.rs lines
280-286): the Rust slices `&hex_clean[i..i + 2]` two BYTES at a time.  A
one-byte character followed by a one-byte character gives a two-byte slice
parsed by `from_str_radix`; a two-byte character is itself a valid two-byte
slice whose bytes are not digits, so parsing errors; a one-byte character
followed by a multi-byte one, or a character of three or more bytes, puts
the slice end inside a character, and the Rust PANICS on the non-boundary
range.  The laziness of `map(...).collect::<Result<_, _>>()` stops at the
first error, so later slices (and their panics) are not evaluated. -/
def decodeHexPairsBytes : List Char → RustHexOutcome
  | [] => RustHexOutcome.ok []
  | c :: rest =>
    if charByteLen c = 1 then
      match rest with
      | [] => RustHexOutcome.err "Hex string length must be even"
      | c2 :: rest2 =>
        if charByteLen c2 = 1 then
          match fromStrRadix16 c c2 with
          | Except.error e => RustHexOutcome.err ("Invalid hex: " ++ e)
          | Except.ok b =>
            match decodeHexPairsBytes rest2 with
            | RustHexOutcome.ok bs => RustHexOutcome.ok (b :: bs)
            | r => r
        else RustHexOutcome.panicked
    else if charByteLen c = 2 then
      RustHexOutcome.err ("Invalid hex: " ++ "invalid digit found in string")
    else RustHexOutcome.panicked

/-- Byte-faithful `hex_string_to_bytes` (lib.rs lines 271-287): the even
check counts `hex_clean.len()` in BYTES of the whitespace-stripped string,
and decoding may panic on non-ASCII input (see `decodeHexPairsBytes`). -/
def hexStringToBytesRust (hex : String) : RustHexOutcome :=
  let hex_clean := cleanHex hex
  if ((hex_clean.map utf8EncodeCharNat).flatten).length % 2 ≠ 0 then
    RustHexOutcome.err "Hex string length must be even"
  else
    decodeHexPairsBytes hex_clean

/-- View of an `Except` decode result as a `RustHexOutcome` (no panic). -/
def hexOutcomeOfExcept : Except String (List Nat) → RustHexOutcome
  | Except.ok l => RustHexOutcome.ok l
  | Except.error e => RustHexOutcome.err e

/-- Byte-faithful `write_serial_data` (lib.rs lines 165-221): identical to
`write_serial_data` except that the hex decode is the byte-faithful
`hexStringToBytesRust`, whose panic aborts the command before any port
lookup or registry access. -/
def write_serial_data_rust {H : Type} (port_name data : String) (is_hex : Bool)
    (now : Nat) (osWrite : H → List Nat → Except String Unit)
    (virt : Buffers) (real : SerialPorts H) :
    RustRun (Except String String × Buffers × SerialPorts H) :=
  match (if is_hex then hexStringToBytesRust data
         else RustHexOutcome.ok (strBytes data)) with
  | RustHexOutcome.panicked => RustRun.panicked
  | RustHexOutcome.err e =>
    RustRun.ret (Except.error ("Invalid hex string: " ++ e), virt, real)
  | RustHexOutcome.ok bytes_to_send =>
    RustRun.ret
      (if strStartsWith port_name "VIRTUAL-" then
        let r := virtualWriteBytes port_name bytes_to_send data now virt
        (r.1, r.2, real)
      else
        match mapFind port_name real with
        | none => (Except.error ("Port " ++ port_name ++ " not found"), virt, real)
        | some port =>
          match osWrite port bytes_to_send with
          | Except.error e =>
            (Except.error ("Failed to write data: " ++ e), virt, real)
          | Except.ok _ =>
            (Except.ok ("Sent " ++ toString bytes_to_send.length ++ " bytes"),
             virt, real))

theorem mapFind_mapInsert_self (k : String) (v : α) (m : List (String × α)) :
    mapFind k (mapInsert k v m) = some v := by
  simp [mapInsert, mapFind]

theorem mapFind_mapErase_ne (k k2 : String) (m : List (String × α)) (h : k ≠ k2) :
    mapFind k2 (mapErase k m) = mapFind k2 m := by
  induction m with
  | nil => rfl
  | cons p rest ih =>
    obtain ⟨pk, pv⟩ := p
    by_cases hk : pk = k
    · subst hk
      have he : mapErase pk ((pk, pv) :: rest) = mapErase pk rest := by
        simp [mapErase]
      rw [he, ih]
      simp [mapFind, if_neg h]
    · have he : mapErase k ((pk, pv) :: rest) = (pk, pv) :: mapErase k rest := by
        simp [mapErase, hk]
      rw [he]
      by_cases hk2 : pk = k2
      · simp [mapFind, hk2]
      · simp [mapFind, hk2, ih]

theorem mapFind_mapInsert_ne (k k2 : String) (v : α) (m : List (String × α))
    (h : k ≠ k2) : mapFind k2 (mapInsert k v m) = mapFind k2 m := by
  simp only [mapInsert, mapFind, if_neg h]
  exact mapFind_mapErase_ne k k2 m h

theorem mapErase_of_mapFind_none (k : String) (m : List (String × α))
    (h : mapFind k m = none) : mapErase k m = m := by
  induction m with
  | nil => rfl
  | cons p rest ih =>
    obtain ⟨pk, pv⟩ := p
    simp only [mapFind] at h
    by_cases hk : pk = k
    · rw [if_pos hk] at h; cases h
    · rw [if_neg hk] at h
      have he : mapErase k ((pk, pv) :: rest) = (pk, pv) :: mapErase k rest := by
        simp [mapErase, hk]
      rw [he, ih h]

theorem fromStrRadix16_isOk_iff (c1 c2 : Char) :
    (fromStrRadix16 c1 c2).isOk = true ↔
      (((hexDigitVal c1).isSome = true ∧ (hexDigitVal c2).isSome = true) ∨
       (c1 = '+' ∧ (hexDigitVal c2).isSome = true)) := by
  by_cases h1 : c1 = '+'
  · subst h1
    have hp : hexDigitVal '+' = none := rfl
    rcases h2 : hexDigitVal c2 with _ | v
    · simp [fromStrRadix16, h2, hp, Except.isOk, Except.toBool]
    · simp [fromStrRadix16, h2, hp, Except.isOk, Except.toBool]
  · rcases ha : hexDigitVal c1 with _ | v1
    · simp [fromStrRadix16, h1, ha, Except.isOk, Except.toBool]
    · rcases hb : hexDigitVal c2 with _ | v2
      · simp [fromStrRadix16, h1, ha, hb, Except.isOk, Except.toBool]
      · simp [fromStrRadix16, h1, ha, hb, Except.isOk, Except.toBool]

theorem decodeHexPairs_isOk_iff : ∀ cs : List Char,
    (decodeHexPairs cs).isOk = true ↔
      (cs.length % 2 = 0 ∧
       ∀ p ∈ hexPairs cs,
         (((hexDigitVal p.1).isSome = true ∧ (hexDigitVal p.2).isSome = true) ∨
          (p.1 = '+' ∧ (hexDigitVal p.2).isSome = true)))
  | [] => by simp [decodeHexPairs, hexPairs, Except.isOk, Except.toBool]
  | [c] => by simp [decodeHexPairs, hexPairs, Except.isOk, Except.toBool, Nat.mod_self]
  | c1 :: c2 :: rest => by
    have ih := decodeHexPairs_isOk_iff rest
    have hlen : (c1 :: c2 :: rest).length % 2 = rest.length % 2 := by
      simp only [List.length_cons]
      omega
    rcases hf : fromStrRadix16 c1 c2 with e | b
    · have : (fromStrRadix16 c1 c2).isOk = false := by
        rw [hf]; rfl
      simp only [decodeHexPairs, hf, hexPairs]
      constructor
      · intro hh; exact absurd hh (by simp [Except.isOk, Except.toBool])
      · rintro ⟨_, hall⟩
        have := hall (c1, c2) (by simp)
        rw [← fromStrRadix16_isOk_iff] at this
        rw [hf] at this
        exact absurd this (by simp [Except.isOk, Except.toBool])
    · have hok : (fromStrRadix16 c1 c2).isOk = true := by rw [hf]; rfl
      rw [fromStrRadix16_isOk_iff] at hok
      simp only [decodeHexPairs, hf, hexPairs, hlen]
      rcases hd : decodeHexPairs rest with e2 | bs
      · rw [hd] at ih
        simp only [Except.isOk, Except.toBool] at ih ⊢
        constructor
        · intro hh; cases hh
        · rintro ⟨hl, hall⟩
          have : False := by
            rcases ih.mpr ⟨hl, fun p hp => hall p (by simp [hp])⟩ with h
            cases h
          exact this.elim
      · rw [hd] at ih
        simp only [Except.isOk, Except.toBool] at ih ⊢
        constructor
        · intro _
          refine ⟨(ih.mp trivial).1, ?_⟩
          intro p hp
          rcases List.mem_cons.mp hp with h | h
          · subst h; exact hok
          · exact (ih.mp trivial).2 p h
        · intro _; trivial

theorem charByteLen_of_lt_128 (c : Char) (h : c.toNat < 128) : charByteLen c = 1 := by
  simp [charByteLen, utf8EncodeCharNat, h]

theorem lt_128_of_charByteLen (c : Char) (h : charByteLen c = 1) : c.toNat < 128 := by
  unfold charByteLen utf8EncodeCharNat at h
  simp only [] at h
  split_ifs at h with h1 h2 h3
  · exact h1
  · simp at h
  · simp at h
  · simp at h

theorem decodeHexPairsBytes_ascii : ∀ cs : List Char,
    (∀ c ∈ cs, c.toNat < 128) →
    decodeHexPairsBytes cs = hexOutcomeOfExcept (decodeHexPairs cs)
  | [] => fun _ => rfl
  | [c] => fun h => by
    have hc : charByteLen c = 1 := charByteLen_of_lt_128 c (h c (by simp))
    simp [decodeHexPairsBytes, hc, decodeHexPairs, hexOutcomeOfExcept]
  | c1 :: c2 :: rest => fun h => by
    have hc1 : charByteLen c1 = 1 := charByteLen_of_lt_128 c1 (h c1 (by simp))
    have hc2 : charByteLen c2 = 1 := charByteLen_of_lt_128 c2 (h c2 (by simp))
    have ih := decodeHexPairsBytes_ascii rest (fun c hc => h c (by simp [hc]))
    rcases hf : fromStrRadix16 c1 c2 with e | b
    · simp [decodeHexPairsBytes, hc1, hc2, decodeHexPairs, hf, hexOutcomeOfExcept]
    · rcases hd : decodeHexPairs rest with e2 | bs
      · rw [hd] at ih
        simp [decodeHexPairsBytes, hc1, hc2, decodeHexPairs, hf, hd, ih,
          hexOutcomeOfExcept]
      · rw [hd] at ih
        simp [decodeHexPairsBytes, hc1, hc2, decodeHexPairs, hf, hd, ih,
          hexOutcomeOfExcept]

theorem flatten_length_ascii : ∀ cs : List Char,
    (∀ c ∈ cs, c.toNat < 128) →
    ((cs.map utf8EncodeCharNat).flatten).length = cs.length
  | [] => fun _ => rfl
  | c :: rest => fun h => by
    have hc : (utf8EncodeCharNat c).length = 1 :=
      charByteLen_of_lt_128 c (h c (by simp))
    have ih := flatten_length_ascii rest (fun c hc => h c (by simp [hc]))
    simp [List.flatten, hc, ih]
    omega

theorem hexStringToBytesRust_ascii (s : String)
    (h : ∀ c ∈ cleanHex s, c.toNat < 128) :
    hexStringToBytesRust s = hexOutcomeOfExcept (hex_string_to_bytes s) := by
  unfold hexStringToBytesRust hex_string_to_bytes
  simp only []
  rw [flatten_length_ascii (cleanHex s) h]
  by_cases hpar : (cleanHex s).length % 2 = 0
  · rw [if_neg (by simp [hpar]), if_neg (by simp [hpar])]
    exact decodeHexPairsBytes_ascii (cleanHex s) h
  · rw [if_pos (by simp [hpar]), if_pos (by simp [hpar])]
    rfl

theorem hexDigitVal_ascii (c : Char) (h : (hexDigitVal c).isSome = true) :
    c.toNat < 128 := by
  unfold hexDigitVal at h
  split_ifs at h with h1 h2 h3
  · have hle : c.toNat ≤ 57 := h1.2
    omega
  · have hle : c.toNat ≤ 102 := h2.2
    omega
  · have hle : c.toNat ≤ 70 := h3.2
    omega
  · cases h

theorem fromStrRadix16_ok_ascii (c1 c2 : Char) (b : Nat)
    (h : fromStrRadix16 c1 c2 = Except.ok b) :
    c1.toNat < 128 ∧ c2.toNat < 128 := by
  have hok : (fromStrRadix16 c1 c2).isOk = true := by rw [h]; rfl
  rcases (fromStrRadix16_isOk_iff c1 c2).mp hok with ⟨ha, hb⟩ | ⟨ha, hb⟩
  · exact ⟨hexDigitVal_ascii c1 ha, hexDigitVal_ascii c2 hb⟩
  · refine ⟨?_, hexDigitVal_ascii c2 hb⟩
    subst ha
    decide

theorem decodeHexPairs_ok_ascii : ∀ (cs : List Char) (l : List Nat),
    decodeHexPairs cs = Except.ok l → ∀ c ∈ cs, c.toNat < 128
  | [], _, _ => by simp
  | [c], l, h => by cases h
  | c1 :: c2 :: rest, l, h => by
    intro c hc
    rcases hf : fromStrRadix16 c1 c2 with e | b
    · rw [decodeHexPairs, hf] at h; cases h
    · rcases hd : decodeHexPairs rest with e2 | bs
      · rw [decodeHexPairs, hf, hd] at h; cases h
      · have ih := decodeHexPairs_ok_ascii rest bs hd
        have ha := fromStrRadix16_ok_ascii c1 c2 b hf
        rcases List.mem_cons.mp hc with h1 | hcc
        · subst h1; exact ha.1
        · rcases List.mem_cons.mp hcc with h2 | hcc2
          · subst h2; exact ha.2
          · exact ih c hcc2

theorem decodeHexPairsBytes_ok_ascii : ∀ (cs : List Char) (l : List Nat),
    decodeHexPairsBytes cs = RustHexOutcome.ok l → ∀ c ∈ cs, c.toNat < 128
  | [], _, _ => by simp
  | [c], l, h => by
    unfold decodeHexPairsBytes at h
    split_ifs at h <;> cases h
  | c1 :: c2 :: rest, l, h => by
    simp only [decodeHexPairsBytes] at h
    by_cases hc1 : charByteLen c1 = 1
    · rw [if_pos hc1] at h
      by_cases hc2 : charByteLen c2 = 1
      · rw [if_pos hc2] at h
        rcases hf : fromStrRadix16 c1 c2 with e | b
        · rw [hf] at h; cases h
        · rw [hf] at h
          rcases hd : decodeHexPairsBytes rest with bs | e2
          · rw [hd] at h
            have ih := decodeHexPairsBytes_ok_ascii rest bs hd
            intro c hc
            rcases List.mem_cons.mp hc with hh1 | hcc
            · subst hh1; exact lt_128_of_charByteLen c hc1
            · rcases List.mem_cons.mp hcc with hh2 | hcc2
              · subst hh2; exact lt_128_of_charByteLen c hc2
              · exact ih c hcc2
          · rw [hd] at h; cases h
          · rw [hd] at h; cases h
      · rw [if_neg hc2] at h; cases h
    · rw [if_neg hc1] at h
      split_ifs at h <;> cases h

theorem hexStringToBytesRust_ok_iff (s : String) (l : List Nat) :
    hexStringToBytesRust s = RustHexOutcome.ok l ↔
      hex_string_to_bytes s = Except.ok l := by
  constructor
  · intro h
    by_cases hb : ((cleanHex s).map utf8EncodeCharNat).flatten.length % 2 = 0
    · have hdec : decodeHexPairsBytes (cleanHex s) = RustHexOutcome.ok l := by
        unfold hexStringToBytesRust at h
        simp only [] at h
        rw [if_neg (not_not_intro hb)] at h
        exact h
      have hascii := decodeHexPairsBytes_ok_ascii (cleanHex s) l hdec
      have hag := hexStringToBytesRust_ascii s hascii
      rw [h] at hag
      rcases hx : hex_string_to_bytes s with e | l2
      · rw [hx] at hag; cases hag
      · rw [hx] at hag
        simp only [hexOutcomeOfExcept] at hag
        cases hag
        rfl
    · unfold hexStringToBytesRust at h
      simp only [] at h
      rw [if_pos hb] at h
      cases h
  · intro h
    have hdecode : decodeHexPairs (cleanHex s) = Except.ok l := by
      unfold hex_string_to_bytes at h
      simp only [] at h
      by_cases hpar : (cleanHex s).length % 2 = 0
      · rw [if_neg (by simp [hpar])] at h; exact h
      · rw [if_pos (by simp [hpar])] at h; cases h
    have hascii := decodeHexPairs_ok_ascii (cleanHex s) l hdecode
    rw [hexStringToBytesRust_ascii s hascii, h]
    rfl

theorem write_serial_data_rust_err (H : Type) (name data : String) (now : Nat)
    (osWrite : H → List Nat → Except String Unit)
    (virt : Buffers) (real : SerialPorts H) (e : String)
    (he : hexStringToBytesRust data = RustHexOutcome.err e) :
    write_serial_data_rust name data true now osWrite virt real =
      RustRun.ret (Except.error ("Invalid hex string: " ++ e), virt, real) := by
  simp [write_serial_data_rust, he]

/-- Claim C1: for the echo virtual port "VIRTUAL-COM1", after opening it, a
write of any byte sequence `B` followed by a read returns exactly `B`, and a
second read immediately after returns the empty byte sequence.  The write is
stated through `virtualWriteBytes`, the virtual branch of
`write_serial_data`, so that `B` ranges over arbitrary byte sequences. -/
theorem C1_echo_write_read_roundtrip
    (B : List Nat) (data : String) (now : Nat) (virt0 : Buffers)
    (config : SerialConfig) (isWindows : Bool)
    (osOpen : OpenSettings → Except String Unit) (real : SerialPorts Unit)
    (tm1 tm2 : Nat) (setT : Nat → Except String Unit) (rr1 rr2 : ReadOutcome)
    (hname : config.port_name = "VIRTUAL-COM1") :
    (let opened := open_serial_port isWindows config osOpen virt0 real
     let w := virtualWriteBytes "VIRTUAL-COM1" B data now opened.2.1
     let r1 := read_serial_data "VIRTUAL-COM1" tm1 setT rr1 w.2 real
     let r2 := read_serial_data "VIRTUAL-COM1" tm2 setT rr2 r1.2 real
     w.1 = Except.ok ("Sent " ++ toString B.length ++ " bytes") ∧
     r1.1 = Except.ok B ∧ r2.1 = Except.ok []) := by
  have hop : (open_serial_port isWindows config osOpen virt0 real).2.1 =
      mapInsert "VIRTUAL-COM1" [] virt0 := by
    simp [open_serial_port, hname,
      show strStartsWith "VIRTUAL-COM1" "VIRTUAL-" = true from rfl]
  have hrd : ∀ (tm : Nat) (rr : ReadOutcome) (v : Buffers),
      read_serial_data (H := Unit) "VIRTUAL-COM1" tm setT rr v real =
        virtualRead "VIRTUAL-COM1" v := by
    intro tm rr v
    simp [read_serial_data, show strStartsWith "VIRTUAL-COM1" "VIRTUAL-" = true from rfl]
  simp only [hop, hrd]
  rcases B with _ | ⟨b, bs⟩
  · simp [virtualWriteBytes, virtualRead, mapFind_mapInsert_self]
  · simp [virtualWriteBytes, virtualRead, mapFind_mapInsert_self]

/-- Witness for C1 at `B = [171, 0]`. -/
theorem C1_echo_write_read_roundtrip_witness :
    (SerialConfig.mk "VIRTUAL-COM1" 9600 8 1 "None").port_name = "VIRTUAL-COM1" ∧
    (let opened := open_serial_port false (SerialConfig.mk "VIRTUAL-COM1" 9600 8 1 "None")
       (fun _ => Except.ok ()) [] ([] : SerialPorts Unit)
     let w := virtualWriteBytes "VIRTUAL-COM1" [171, 0] "x" 5 opened.2.1
     let r1 := read_serial_data (H := Unit) "VIRTUAL-COM1" 100 (fun _ => Except.ok ())
       (ReadOutcome.timedOut "t") w.2 []
     let r2 := read_serial_data (H := Unit) "VIRTUAL-COM1" 100 (fun _ => Except.ok ())
       (ReadOutcome.timedOut "t") r1.2 []
     w.1 = Except.ok ("Sent " ++ toString ([171, 0] : List Nat).length ++ " bytes") ∧
     r1.1 = Except.ok [171, 0] ∧ r2.1 = Except.ok []) :=
  ⟨rfl, C1_echo_write_read_roundtrip [171, 0] "x" 5 []
    (SerialConfig.mk "VIRTUAL-COM1" 9600 8 1 "None") false
    (fun _ => Except.ok ()) [] 100 100 (fun _ => Except.ok ())
    (ReadOutcome.timedOut "t") (ReadOutcome.timedOut "t") rfl⟩

/-- Claim C2, counterexample: the claim says decoding succeeds exactly when
the cleaned string has even length and every two-character group is a valid
base-16 pair.  On input "+A" the cleaned string has even length but its
single group is not a pair of base-16 digits (a plus sign is not a base-16
digit), yet `hex_string_to_bytes` succeeds, returning the byte 10: Rust's
`u8::from_str_radix` accepts an optional leading plus sign. -/
theorem C2_hex_decode_plus_sign_counterexample :
    hex_string_to_bytes "+A" = Except.ok [10] ∧
    ¬ (((hex_string_to_bytes "+A").isOk = true) ↔
       ((cleanHex "+A").length % 2 = 0 ∧
        ∀ p ∈ hexPairs (cleanHex "+A"),
          ((hexDigitVal p.1).isSome = true ∧ (hexDigitVal p.2).isSome = true))) :=
  ⟨rfl, by decide⟩

/-- Claim C2, amended: decoding first strips whitespace, then decodes
consecutive two-character groups with base-16 `u8` parsing; it succeeds
exactly when the cleaned string has even length and every group is either two
base-16 digits or a plus sign followed by one base-16 digit (the sign form
being what Rust's `from_str_radix` additionally accepts).  "AB" decodes to
the single byte 0xAB = 171, "ABC" fails with a decoding error, and a
decoding failure is reported identically for real and virtual writes. -/
theorem C2_hex_decode_success_characterization :
    (∀ s : String,
      (hex_string_to_bytes s).isOk = true ↔
        ((cleanHex s).length % 2 = 0 ∧
         ∀ p ∈ hexPairs (cleanHex s),
           (((hexDigitVal p.1).isSome = true ∧ (hexDigitVal p.2).isSome = true) ∨
            (p.1 = '+' ∧ (hexDigitVal p.2).isSome = true)))) ∧
    hex_string_to_bytes "AB" = Except.ok [171] ∧
    hex_string_to_bytes "ABC" = Except.error "Hex string length must be even" ∧
    (∀ (H : Type) (name data : String) (now : Nat)
       (osWrite : H → List Nat → Except String Unit) (virt : Buffers)
       (real : SerialPorts H) (e : String),
       hex_string_to_bytes data = Except.error e →
       (write_serial_data name data true now osWrite virt real).1 =
         Except.error ("Invalid hex string: " ++ e)) := by
  refine ⟨?_, rfl, rfl, ?_⟩
  · intro s
    unfold hex_string_to_bytes
    by_cases hpar : (cleanHex s).length % 2 = 0
    · rw [if_neg (by simp [hpar]), decodeHexPairs_isOk_iff]
    · rw [if_pos hpar]
      simp only [Except.isOk, Except.toBool]
      constructor
      · intro hh; cases hh
      · rintro ⟨hl, _⟩; exact absurd hl hpar
  · intro H name data now osWrite virt real e he
    simp [write_serial_data, he]

/-- Witness for C2 (amended) at the failing input "ABC" written to a real
identifier. -/
theorem C2_hex_decode_success_characterization_witness :
    hex_string_to_bytes "ABC" = Except.error "Hex string length must be even" ∧
    (write_serial_data "COM1" "ABC" true 0 (fun (_ : Unit) _ => Except.ok ())
        [] []).1 =
      Except.error ("Invalid hex string: " ++ "Hex string length must be even") :=
  ⟨rfl, C2_hex_decode_success_characterization.2.2.2 Unit "COM1" "ABC" 0
    (fun _ _ => Except.ok ()) [] [] "Hex string length must be even" rfl⟩

/-- Claim C3: in `open_serial_port` on a real identifier, an unrecognized
parity string falls back to `Parity.none`, an unrecognized stop-bits value
falls back to `StopBits.one`, an unrecognized data-bits value falls back to
`DataBits.eight`, and no configuration-enum value makes the open fail: every
failure of `open_serial_port` is a failure of the underlying OS open. -/
theorem C3_config_fallback_defaults :
    (∀ p : String, p ≠ "None" → p ≠ "Odd" → p ≠ "Even" →
      parseParity p = Parity.none) ∧
    (∀ n : Nat, n ≠ 1 → n ≠ 2 → parseStopBits n = StopBits.one) ∧
    (∀ n : Nat, n ≠ 5 → n ≠ 6 → n ≠ 7 → n ≠ 8 → parseDataBits n = DataBits.eight) ∧
    (∀ (H : Type) (isWindows : Bool) (config : SerialConfig)
       (osOpen : OpenSettings → Except String H) (virt : Buffers)
       (real : SerialPorts H) (msg : String),
       (open_serial_port isWindows config osOpen virt real).1 = Except.error msg →
       ∃ e, osOpen (mkOpenSettings isWindows config) = Except.error e ∧
         msg = "Failed to open port: " ++ e) := by
  refine ⟨?_, ?_, ?_, ?_⟩
  · intro p h1 h2 h3
    unfold parseParity
    split
    · contradiction
    · contradiction
    · contradiction
    · rfl
  · intro n h1 h2
    unfold parseStopBits
    split
    · contradiction
    · contradiction
    · rfl
  · intro n h1 h2 h3 h4
    unfold parseDataBits
    split
    · contradiction
    · contradiction
    · contradiction
    · contradiction
    · rfl
  · intro H isWindows config osOpen virt real msg herr
    by_cases hv : strStartsWith config.port_name "VIRTUAL-" = true
    · simp [open_serial_port, hv] at herr
    · simp only [open_serial_port, hv] at herr
      rcases hos : osOpen (mkOpenSettings isWindows config) with e | h
      · rw [hos] at herr
        simp at herr
        exact ⟨e, rfl, herr.symm⟩
      · rw [hos] at herr
        simp at herr

/-- Witness for C3 at parity "weird", stop bits 7, data bits 9, and an OS
open failure "boom" on the real identifier "COM1". -/
theorem C3_config_fallback_defaults_witness :
    parseParity "weird" = Parity.none ∧
    parseStopBits 7 = StopBits.one ∧
    parseDataBits 9 = DataBits.eight ∧
    (∃ e, (fun (_ : OpenSettings) => (Except.error "boom" : Except String Nat))
        (mkOpenSettings false (SerialConfig.mk "COM1" 9600 9 7 "weird")) =
          Except.error e ∧
      "Failed to open port: boom" = "Failed to open port: " ++ e) :=
  ⟨C3_config_fallback_defaults.1 "weird" (by decide) (by decide) (by decide),
   C3_config_fallback_defaults.2.1 7 (by decide) (by decide),
   C3_config_fallback_defaults.2.2.1 9 (by decide) (by decide) (by decide) (by decide),
   C3_config_fallback_defaults.2.2.2 Nat false
     (SerialConfig.mk "COM1" 9600 9 7 "weird")
     (fun _ => Except.error "boom") [] [] "Failed to open port: boom" rfl⟩

/-- Claim C4: for an open real port, an OS read of kind timed-out yields a
successful empty byte sequence, any other OS read error is surfaced as an
error, and a successful OS read of `data` (at most the 1024-byte scratch
buffer) returns exactly `data`. -/
theorem C4_real_read_timeout_not_error
    (H : Type) (name : String) (tmo : Nat) (setT : Nat → Except String Unit)
    (virt : Buffers) (real : SerialPorts H) (h : H)
    (hreal : strStartsWith name "VIRTUAL-" = false)
    (hfind : mapFind name real = some h)
    (hset : setT tmo = Except.ok ()) :
    (∀ msg, read_serial_data name tmo setT (ReadOutcome.timedOut msg) virt real =
      (Except.ok [], virt)) ∧
    (∀ msg, read_serial_data name tmo setT (ReadOutcome.err msg) virt real =
      (Except.error ("Failed to read data: " ++ msg), virt)) ∧
    (∀ data : List Nat, data.length ≤ 1024 →
      read_serial_data name tmo setT (ReadOutcome.ok data) virt real =
        (Except.ok data, virt)) := by
  refine ⟨?_, ?_, ?_⟩
  · intro msg
    simp [read_serial_data, hreal, hfind, hset]
  · intro msg
    simp [read_serial_data, hreal, hfind, hset]
  · intro data hlen
    have ht : (filledReadBuffer data).take data.length = data := by
      unfold filledReadBuffer
      exact List.take_left data _
    simp [read_serial_data, hreal, hfind, hset, ht]

/-- Witness for C4 on the open real port "COM1". -/
theorem C4_real_read_timeout_not_error_witness :
    strStartsWith "COM1" "VIRTUAL-" = false ∧
    mapFind "COM1" [("COM1", 0)] = some 0 ∧
    (fun (_ : Nat) => (Except.ok () : Except String Unit)) 50 = Except.ok () ∧
    ((∀ msg, read_serial_data "COM1" 50 (fun _ => Except.ok ())
        (ReadOutcome.timedOut msg) [] [("COM1", 0)] = (Except.ok [], [])) ∧
     (∀ msg, read_serial_data "COM1" 50 (fun _ => Except.ok ())
        (ReadOutcome.err msg) [] [("COM1", 0)] =
          (Except.error ("Failed to read data: " ++ msg), [])) ∧
     (∀ data : List Nat, data.length ≤ 1024 →
        read_serial_data "COM1" 50 (fun _ => Except.ok ())
          (ReadOutcome.ok data) [] [("COM1", 0)] = (Except.ok data, []))) :=
  ⟨rfl, rfl, rfl,
   C4_real_read_timeout_not_error Nat "COM1" 50 (fun _ => Except.ok ())
     [] [("COM1", 0)] 0 rfl rfl rfl⟩

/-- Claim C5: closing a virtual identifier succeeds even when it was never
opened (a no-op success that leaves both registries unchanged), while closing
a real identifier absent from the registry fails with a not-found error. -/
theorem C5_close_virtual_noop_real_not_found
    (H : Type) (name1 name2 : String) (virt : Buffers) (real : SerialPorts H) :
    (strStartsWith name1 "VIRTUAL-" = true →
      (close_serial_port name1 virt real).1 =
        Except.ok ("Virtual port " ++ name1 ++ " closed successfully") ∧
      (mapFind name1 virt = none →
        close_serial_port name1 virt real =
          (Except.ok ("Virtual port " ++ name1 ++ " closed successfully"),
           virt, real))) ∧
    (strStartsWith name2 "VIRTUAL-" = false →
      mapFind name2 real = none →
      close_serial_port name2 virt real =
        (Except.error ("Port " ++ name2 ++ " not found"), virt, real)) := by
  constructor
  · intro h1
    constructor
    · simp [close_serial_port, h1]
    · intro hn
      simp [close_serial_port, h1, mapErase_of_mapFind_none name1 virt hn]
  · intro h2 hn
    simp [close_serial_port, h2, hn]

/-- Witness for C5: the never-opened virtual identifier "VIRTUAL-COM9" versus
the unregistered real identifier "COM7". -/
theorem C5_close_virtual_noop_real_not_found_witness :
    strStartsWith "VIRTUAL-COM9" "VIRTUAL-" = true ∧
    strStartsWith "COM7" "VIRTUAL-" = false ∧
    mapFind "VIRTUAL-COM9" ([] : Buffers) = none ∧
    mapFind "COM7" ([] : SerialPorts Nat) = none ∧
    close_serial_port "VIRTUAL-COM9" ([] : Buffers) ([] : SerialPorts Nat) =
      (Except.ok ("Virtual port " ++ "VIRTUAL-COM9" ++ " closed successfully"),
       [], []) ∧
    close_serial_port "COM7" ([] : Buffers) ([] : SerialPorts Nat) =
      (Except.error ("Port " ++ "COM7" ++ " not found"), [], []) :=
  ⟨rfl, rfl, rfl, rfl,
   ((C5_close_virtual_noop_real_not_found Nat "VIRTUAL-COM9" "COM7" [] []).1
     rfl).2 rfl,
   (C5_close_virtual_noop_real_not_found Nat "VIRTUAL-COM9" "COM7" [] []).2
     rfl rfl⟩

/-- Claim C6: every write to an opened virtual port — hex-flagged or plain
text — reports the count of the bytes submitted (after hex decoding when the
hex flag is set, the raw text bytes otherwise), not the count of bytes
appended to the buffer: for the reply variant the buffer gains "Received: "
plus the original text, for the random variant "Random-" plus the timestamp
modulo 10000, yet the message still counts the submitted bytes.  The
hypothesis `hbytes` is exactly the payload-decoding step of
`write_serial_data` (lib.rs lines 166-171) for either flag value. -/
theorem C6_virtual_write_reports_submitted_count
    (H : Type) (name data : String) (bytes : List Nat) (is_hex : Bool) (now : Nat)
    (osWrite : H → List Nat → Except String Unit)
    (virt : Buffers) (real : SerialPorts H) (buffer : List Nat)
    (hv : strStartsWith name "VIRTUAL-" = true)
    (hfind : mapFind name virt = some buffer)
    (hbytes : (if is_hex then hex_string_to_bytes data
               else Except.ok (strBytes data)) = Except.ok bytes) :
    (write_serial_data name data is_hex now osWrite virt real).1 =
      Except.ok ("Sent " ++ toString bytes.length ++ " bytes") ∧
    (name = "VIRTUAL-COM2" →
      (write_serial_data name data is_hex now osWrite virt real).2.1 =
        mapInsert name (buffer ++ strBytes ("Received: " ++ data)) virt) ∧
    (name = "VIRTUAL-COM3" →
      (write_serial_data name data is_hex now osWrite virt real).2.1 =
        mapInsert name (buffer ++ strBytes ("Random-" ++ toString (now % 10000))) virt) := by
  cases is_hex with
  | false =>
    simp at hbytes
    subst hbytes
    refine ⟨?_, ?_, ?_⟩
    · simp [write_serial_data, hv, virtualWriteBytes, hfind]
    · intro h2; subst h2
      simp [write_serial_data, hv, virtualWriteBytes, hfind]
    · intro h3; subst h3
      simp [write_serial_data, hv, virtualWriteBytes, hfind]
  | true =>
    simp at hbytes
    refine ⟨?_, ?_, ?_⟩
    · simp [write_serial_data, hbytes, hv, virtualWriteBytes, hfind]
    · intro h2; subst h2
      simp [write_serial_data, hbytes, hv, virtualWriteBytes, hfind]
    · intro h3; subst h3
      simp [write_serial_data, hbytes, hv, virtualWriteBytes, hfind]

/-- Witness for C6 in both modes on the reply port: the plain-text payload
"hi" is two bytes, the message says "Sent 2 bytes", but the buffer gains the
12 bytes of "Received: hi"; the hex payload "41" is one byte and the message
says "Sent 1 bytes". -/
theorem C6_virtual_write_reports_submitted_count_witness :
    strStartsWith "VIRTUAL-COM2" "VIRTUAL-" = true ∧
    mapFind "VIRTUAL-COM2" ([("VIRTUAL-COM2", [])] : Buffers) = some [] ∧
    (if false then hex_string_to_bytes "hi"
     else Except.ok (strBytes "hi")) = Except.ok [104, 105] ∧
    (if true then hex_string_to_bytes "41"
     else Except.ok (strBytes "41")) = Except.ok [65] ∧
    ((write_serial_data "VIRTUAL-COM2" "hi" false 0
        (fun (_ : Nat) _ => Except.ok ()) [("VIRTUAL-COM2", [])] ([] : SerialPorts Nat)).1 =
      Except.ok ("Sent " ++ toString ([104, 105] : List Nat).length ++ " bytes")) ∧
    ("VIRTUAL-COM2" = "VIRTUAL-COM2" →
      (write_serial_data "VIRTUAL-COM2" "hi" false 0
          (fun (_ : Nat) _ => Except.ok ()) [("VIRTUAL-COM2", [])]
          ([] : SerialPorts Nat)).2.1 =
        mapInsert "VIRTUAL-COM2" ([] ++ strBytes ("Received: " ++ "hi"))
          [("VIRTUAL-COM2", [])]) ∧
    ((write_serial_data "VIRTUAL-COM2" "41" true 0
        (fun (_ : Nat) _ => Except.ok ()) [("VIRTUAL-COM2", [])] ([] : SerialPorts Nat)).1 =
      Except.ok ("Sent " ++ toString ([65] : List Nat).length ++ " bytes")) :=
  ⟨rfl, rfl, rfl, rfl,
   (C6_virtual_write_reports_submitted_count Nat "VIRTUAL-COM2" "hi" [104, 105]
     false 0 (fun _ _ => Except.ok ()) [("VIRTUAL-COM2", [])] [] [] rfl rfl rfl).1,
   (C6_virtual_write_reports_submitted_count Nat "VIRTUAL-COM2" "hi" [104, 105]
     false 0 (fun _ _ => Except.ok ()) [("VIRTUAL-COM2", [])] [] [] rfl rfl rfl).2.1,
   (C6_virtual_write_reports_submitted_count Nat "VIRTUAL-COM2" "41" [65]
     true 0 (fun _ _ => Except.ok ()) [("VIRTUAL-COM2", [])] [] [] rfl rfl rfl).1⟩

/-- Claim C7: `list_serial_ports` never fails and its result always ends with
exactly the three fixed virtual entries, whatever the OS enumeration yields
(`osPorts = none` models an enumeration error, `some []` no real ports); the
function reads neither registry, so the open state is irrelevant. -/
theorem C7_list_ports_always_virtual_entries :
    ∀ osPorts : Option (List OSPortInfo),
      ∃ realEntries : List SerialPortInfo,
        list_serial_ports osPorts = Except.ok (realEntries ++
          [ SerialPortInfo.mk "VIRTUAL-COM1" "Virtual Port (Echo)",
            SerialPortInfo.mk "VIRTUAL-COM2" "Virtual Port (Reply)",
            SerialPortInfo.mk "VIRTUAL-COM3" "Virtual Port (Random)" ]) := by
  intro osPorts
  exact ⟨realPortEntries osPorts, rfl⟩

/-- Claim C8: a real-port open that fails at the OS leaves both registries
untouched and returns the wrapped error; on OS success the handle is inserted
under the identifier, replacing any prior entry and leaving every other key
unchanged. -/
theorem C8_real_open_registry_mutation
    (H : Type) (isWindows : Bool) (config : SerialConfig)
    (osOpen : OpenSettings → Except String H) (virt : Buffers)
    (real : SerialPorts H)
    (hreal : strStartsWith config.port_name "VIRTUAL-" = false) :
    (∀ e, osOpen (mkOpenSettings isWindows config) = Except.error e →
      open_serial_port isWindows config osOpen virt real =
        (Except.error ("Failed to open port: " ++ e), virt, real)) ∧
    (∀ h, osOpen (mkOpenSettings isWindows config) = Except.ok h →
      open_serial_port isWindows config osOpen virt real =
        (Except.ok ("Port " ++ config.port_name ++ " opened successfully"),
         virt, mapInsert config.port_name h real) ∧
      mapFind config.port_name (mapInsert config.port_name h real) = some h ∧
      (∀ k, k ≠ config.port_name →
        mapFind k (mapInsert config.port_name h real) = mapFind k real)) := by
  constructor
  · intro e he
    simp [open_serial_port, hreal, he]
  · intro h hok
    refine ⟨by simp [open_serial_port, hreal, hok], mapFind_mapInsert_self _ _ _, ?_⟩
    intro k hk
    exact mapFind_mapInsert_ne config.port_name k h real (fun hh => hk hh.symm)

/-- Witness for C8 on "COM3" with a failing OS open and with a prior entry
being replaced on success. -/
theorem C8_real_open_registry_mutation_witness :
    strStartsWith "COM3" "VIRTUAL-" = false ∧
    open_serial_port false (SerialConfig.mk "COM3" 9600 8 1 "None")
        (fun _ => (Except.error "boom" : Except String Nat)) [] [("COM3", 1)] =
      (Except.error ("Failed to open port: " ++ "boom"), [], [("COM3", 1)]) ∧
    (open_serial_port false (SerialConfig.mk "COM3" 9600 8 1 "None")
        (fun _ => (Except.ok 2 : Except String Nat)) [] [("COM3", 1)] =
      (Except.ok ("Port " ++ "COM3" ++ " opened successfully"),
       [], mapInsert "COM3" 2 [("COM3", 1)]) ∧
     mapFind "COM3" (mapInsert "COM3" 2 [("COM3", 1)]) = some 2 ∧
     (∀ k, k ≠ "COM3" →
       mapFind k (mapInsert "COM3" 2 [("COM3", 1)]) = mapFind k [("COM3", 1)])) :=
  ⟨rfl,
   (C8_real_open_registry_mutation Nat false (SerialConfig.mk "COM3" 9600 8 1 "None")
     (fun _ => Except.error "boom") [] [("COM3", 1)] rfl).1 "boom" rfl,
   (C8_real_open_registry_mutation Nat false (SerialConfig.mk "COM3" 9600 8 1 "None")
     (fun _ => Except.ok 2) [] [("COM3", 1)] rfl).2 2 rfl⟩

/-- Claim C9: the identifier rewrite before the OS open call rewrites, on
Windows only, identifiers "COM<suffix>" whose suffix parses as a `u32` of
value at least 10 into the extended form prefixed by two backslashes, a dot
and a backslash; any other identifier (non-Windows, not a COM prefix, an
unparsable suffix, or a value below 10) passes through unchanged; and the
settings handed to the OS open use exactly this normalized path. -/
theorem C9_normalize_port_path_windows_rewrite :
    (∀ name : String, normalize_port_path false name = name) ∧
    (∀ (name : String) (n : Nat),
      strStartsWith name "COM" = true → parseU32 (name.drop 3) = some n →
      10 ≤ n → normalize_port_path true name = "\\\\.\\" ++ name) ∧
    (∀ (name : String) (n : Nat),
      strStartsWith name "COM" = true → parseU32 (name.drop 3) = some n →
      n < 10 → normalize_port_path true name = name) ∧
    (∀ name : String, strStartsWith name "COM" = true →
      parseU32 (name.drop 3) = none → normalize_port_path true name = name) ∧
    (∀ name : String, strStartsWith name "COM" = false →
      normalize_port_path true name = name) ∧
    (∀ (isWindows : Bool) (config : SerialConfig),
      (mkOpenSettings isWindows config).path =
        normalize_port_path isWindows config.port_name) := by
  refine ⟨fun name => rfl, ?_, ?_, ?_, ?_, fun isWindows config => rfl⟩
  · intro name n hs hp hge
    simp [normalize_port_path, hs, hp, hge]
  · intro name n hs hp hlt
    simp [normalize_port_path, hs, hp, Nat.not_le.mpr hlt]
  · intro name hs hp
    simp [normalize_port_path, hs, hp]
  · intro name hs
    simp [normalize_port_path, hs]

/-- Witness for C9 at "COM10" (rewritten), "COM9" (unchanged), "COMx"
(unparsable suffix, unchanged) and "ttyUSB0" (no COM prefix, unchanged). -/
theorem C9_normalize_port_path_windows_rewrite_witness :
    normalize_port_path false "COM10" = "COM10" ∧
    (strStartsWith "COM10" "COM" = true ∧ parseU32 ("COM10".drop 3) = some 10 ∧
      normalize_port_path true "COM10" = "\\\\.\\" ++ "COM10") ∧
    (strStartsWith "COM9" "COM" = true ∧ parseU32 ("COM9".drop 3) = some 9 ∧
      normalize_port_path true "COM9" = "COM9") ∧
    (strStartsWith "COMx" "COM" = true ∧ parseU32 ("COMx".drop 3) = none ∧
      normalize_port_path true "COMx" = "COMx") ∧
    (strStartsWith "ttyUSB0" "COM" = false ∧
      normalize_port_path true "ttyUSB0" = "ttyUSB0") :=
  ⟨C9_normalize_port_path_windows_rewrite.1 "COM10",
   ⟨rfl, rfl, C9_normalize_port_path_windows_rewrite.2.1 "COM10" 10 rfl rfl
     (by decide)⟩,
   ⟨rfl, rfl, C9_normalize_port_path_windows_rewrite.2.2.1 "COM9" 9 rfl rfl
     (by decide)⟩,
   ⟨rfl, rfl, C9_normalize_port_path_windows_rewrite.2.2.2.1 "COMx" rfl rfl⟩,
   ⟨rfl, C9_normalize_port_path_windows_rewrite.2.2.2.2.1 "ttyUSB0" rfl⟩⟩

/-- Claim C10: the claim says a hex-flagged write with a malformed payload
always fails with the invalid-hex error, for every identifier, leaving the
registries unchanged.  The claim matches the intent (spec: malformed hex
"fails with a decoding error"), but the code has a bug on non-ASCII payloads:
the Rust slices `&hex_clean[i..i + 2]` by BYTE index, and on the malformed
payload "0é0" — whose cleaned form is 4 bytes, so it passes the even-length
check — the first slice `[0..2]` ends inside the two-byte character é, so
the program PANICS instead of returning the decoding error.  This theorem
evaluates the byte-faithful model at that failing input: the decode panics,
hence the hex-flagged write of "0é0" panics for every identifier (virtual or
real, opened or not) before any lookup, and since the outcome is the
`panicked` constructor it is neither the invalid-hex error nor any other
returned result; the character-level decoder confirms the payload is indeed
malformed (it cannot decode successfully). -/
theorem C10_hex_panic_on_failing_input :
    hexStringToBytesRust "0é0" = RustHexOutcome.panicked ∧
    (hexStringToBytesRust "0é0").isPanicked = true ∧
    write_serial_data_rust "VIRTUAL-COM1" "0é0" true 0
      (fun (_ : Nat) _ => Except.ok ()) [] [] = RustRun.panicked ∧
    write_serial_data_rust "COM1" "0é0" true 0
      (fun (_ : Nat) _ => Except.ok ()) [] [("COM1", 0)] = RustRun.panicked ∧
    (hex_string_to_bytes "0é0").isOk = false :=
  ⟨rfl, rfl, rfl, rfl, rfl⟩

end SerialTool
